import Mathlib

/-!
Shallow embedding of the TPU input-validation pass
(`tensorflow/compiler/mlir/tensorflow/transforms/tpu_validate_inputs.cc`).
The MLIR graph data structure, attribute storage and diagnostic formatting
are external collaborators of the pass; they are modelled abstractly:
an operation is an `OpData` record carrying its kind tag, its
`_tpu_replicate` attribute (`tpuReplicateAttr`), device attribute,
outside-compilation marker, packing flag, operand/result types and (for
metadata ops) the replication fields read by the pass;
`GetSuccessors`/`GetPredecessors` (pure graph-neighbour queries over the
executor-island structure) are modelled as the `succs`/`preds` fields of a
`Node`, so every check function reads exactly the adjacency the source
would compute;
a diagnostic is a `Diag` value tagged by its emission site in the source,
carrying the expected/actual payload the source prints;
`tensorflow::TypeValidForXLA` and resource-element detection are external
type predicates, modelled as the two boolean fields of `TFType`.
Every check function is a direct translation of the function of the
same name in the source file, returning its boolean outcome together with
the list of diagnostics it emits, in emission order. Definitions come
first (model, then concrete test operations and graphs), followed by the
lemmas and the claim theorems.
-/

namespace TPUValidate

/-- Kind tag of an operation: the registered op classes the pass tests for,
a catch-all for other registered ops, and unregistered ops. -/
inductive OpKind : Type where
  | moduleOp
  | graphOp
  | returnOp
  | funcOp
  | yieldOp
  | islandOp
  | fetchOp
  | tpuReplicatedInput
  | tpuReplicatedOutput
  | tpuPartitionedInput
  | tpuPartitionedInputV2
  | tpuPartitionedOutput
  | tpuPartitionedOutputV2
  | tpuReplicateMetadata
  | constOp
  | whileOp
  | assertOp
  | identityOp
  | statefulPartitionedCallOp
  | tensorArrayV3Op
  | xlaSetDynamicDimensionSizeOp
  | otherRegistered (name : String)
  | unregistered (name : String)
  deriving DecidableEq

/-- A tensor type, abstracted to the two facts the pass queries about it:
whether its element type is a resource type and whether
`tensorflow::TypeValidForXLA` holds for it. -/
structure TFType : Type where
  elemIsResource : Bool
  validForXLA : Bool
  deriving DecidableEq

/-- The per-operation data read by the pass. -/
structure OpData : Type where
  kind : OpKind
  tpuReplicateAttr : Option String
  deviceAttr : Option String
  outsideCompilationAttr : Bool
  isPacked : Bool
  operandTypes : List TFType
  resultTypes : List TFType
  allowSoftPlacement : Bool
  numReplicas : Int
  numCoresPerReplica : Int
  deriving DecidableEq

/-- An operation together with its graph neighbourhood: `preds` models the
result of `GetPredecessors`, `succs` the result of `GetSuccessors`. -/
inductive Node : Type where
  | mk : OpData → List Node → List Node → Node

/-- The operation data of a node. -/
def Node.data : Node → OpData
  | .mk d _ _ => d

/-- The predecessors of a node (result of `GetPredecessors`). -/
def Node.preds : Node → List Node
  | .mk _ p _ => p

/-- The successors of a node (result of `GetSuccessors`). -/
def Node.succs : Node → List Node
  | .mk _ _ s => s

/-- Whether an op kind is registered (`getRegisteredInfo` non-null). -/
def isRegistered : OpKind → Bool
  | .unregistered _ => false
  | _ => true

/-- Membership in the static set of `IsTpuRegularOp`: module, graph,
return, function, yield, island, fetch, the six replication/partition
kinds and the metadata kind. -/
def structuralSet : OpKind → Bool
  | .moduleOp | .graphOp | .returnOp | .funcOp | .yieldOp | .islandOp
  | .fetchOp
  | .tpuReplicatedInput | .tpuReplicatedOutput
  | .tpuPartitionedInput | .tpuPartitionedInputV2
  | .tpuPartitionedOutput | .tpuPartitionedOutputV2
  | .tpuReplicateMetadata => true
  | _ => false

/-- `IsTpuRegularOp`: unregistered ops count as regular; registered ops are
regular exactly when their kind is outside the structural set. -/
def IsTpuRegularOp (op : OpData) : Bool :=
  if !isRegistered op.kind then true else !structuralSet op.kind

/-- Membership in the static set of `IsIntersectionXlaNonXlaOps`:
constant, while-loop, assert, identity, stateful call, tensor array and
the dynamic-dimension-size-setting kind. -/
def intersectionSet : OpKind → Bool
  | .constOp | .whileOp | .assertOp | .identityOp
  | .statefulPartitionedCallOp | .tensorArrayV3Op
  | .xlaSetDynamicDimensionSizeOp => true
  | _ => false

/-- `IsIntersectionXlaNonXlaOps`: unregistered ops yield `true`; registered
ops yield `true` exactly when their kind is outside the set above
(`ops->count(...) == 0` in the source). -/
def IsIntersectionXlaNonXlaOps (op : OpData) : Bool :=
  if !isRegistered op.kind then true else !intersectionSet op.kind

/-- Diagnostics, tagged by emission site in the source, with the
expected/actual payloads the source prints. -/
inductive Diag : Type where
  | missingTpuReplicateAttr
  | invalidTpuReplicateAttr
  | repPackedArity (numReplicas arity : Int)
  | repInputArity (numReplicas arity : Int)
  | repOutputArity (numReplicas arity : Int)
  | partInputArity (numCores arity : Int)
  | partPackedArity (numCores arity : Int)
  | partOutputArity (numCores arity : Int)
  | emptyTpuReplicateAttr
  | mismatchedClusters (cluster clusterSucc : String)
  | nonClusterSuccessorWarning
  | invalidSuccessorOfNonCluster
  | invalidPredecessorOfNonCluster
  | xlaNonXlaConflict
  deriving DecidableEq

/-- Severity: `CheckClusterSuccessors` emits its no-cluster-successor
message with `emitWarning`; every other diagnostic is an `emitOpError`. -/
def Diag.isWarning : Diag → Bool
  | .nonClusterSuccessorWarning => true
  | _ => false

/-- A diagnostic that is an error (everything except the warning). -/
def Diag.isError (d : Diag) : Bool := !d.isWarning

/-- The two arity diagnostics `ValidateReplicatedInput` can emit. -/
def Diag.isRepInputArityDiag : Diag → Bool
  | .repPackedArity _ _ => true
  | .repInputArity _ _ => true
  | _ => false

/-- The metadata map built by the first walk: association list keyed by
cluster identifier; the entry prepended last (latest metadata op) wins. -/
def MetadataMap : Type := List (String × OpData)

/-- Lookup in the metadata map (first match, i.e. the latest insertion). -/
def lookupMeta : MetadataMap → String → Option OpData
  | [], _ => none
  | (k, v) :: rest, c => if k = c then some v else lookupMeta rest c

/-- `CheckTpuReplicateAttr`: the neighbour must carry `_tpu_replicate`
and its value must equal the attribute propagated from the metadata op. -/
def CheckTpuReplicateAttr (op : OpData) (attr : Option String) :
    Bool × List Diag :=
  match op.tpuReplicateAttr with
  | none => (false, [Diag.missingTpuReplicateAttr])
  | some s =>
    if some s ≠ attr then (false, [Diag.invalidTpuReplicateAttr])
    else (true, [])

/-- One iteration of the neighbour loops in `ValidateReplicatedInput` /
`ValidateReplicatedOutput`: non-regular neighbours are skipped
(`continue`), regular ones go through `CheckTpuReplicateAttr`. -/
def neighborAttrCheck (attr : Option String) (n : Node) : Bool × List Diag :=
  if IsTpuRegularOp n.data then CheckTpuReplicateAttr n.data attr
  else (true, [])

/-- Source loop pattern: run `f` over the list in order, keep the
diagnostics of completed iterations, and return `false` at the first
iteration whose check fails (`if (!check) return false;`). -/
def runAll {α : Type} (f : α → Bool × List Diag) : List α → Bool × List Diag
  | [] => (true, [])
  | x :: xs =>
    let r := f x
    if r.1 then
      let rest := runAll f xs
      (rest.1, r.2 ++ rest.2)
    else (false, r.2)

/-- `ValidateReplicatedInput`: packed/unpacked arity rule against
`num_replicas`, then the propagated-attribute check over successors. -/
def ValidateReplicatedInput (rep : Node) (numReplicas : Int)
    (attr : Option String) : Bool × List Diag :=
  let arity : Int := rep.data.operandTypes.length
  if rep.data.isPacked ∧ arity ≠ 1 then
    (false, [Diag.repPackedArity numReplicas arity])
  else if ¬rep.data.isPacked ∧ arity ≠ numReplicas then
    (false, [Diag.repInputArity numReplicas arity])
  else
    runAll (neighborAttrCheck attr) rep.succs

/-- `ValidateReplicatedOutput`: output arity against `num_replicas`, then
the propagated-attribute check over predecessors. -/
def ValidateReplicatedOutput (rep : Node) (numReplicas : Int)
    (attr : Option String) : Bool × List Diag :=
  let arity : Int := rep.data.resultTypes.length
  if arity ≠ numReplicas then
    (false, [Diag.repOutputArity numReplicas arity])
  else
    runAll (neighborAttrCheck attr) rep.preds

/-- `ValidatePartitionedInput` (v1): exact arity against
`num_cores_per_replica`, no packing option. -/
def ValidatePartitionedInput (rep : Node) (numCores : Int) :
    Bool × List Diag :=
  let arity : Int := rep.data.operandTypes.length
  if arity ≠ numCores then (false, [Diag.partInputArity numCores arity])
  else (true, [])

/-- `ValidatePartitionedInputV2`: packed/unpacked arity rule against
`num_cores_per_replica`. -/
def ValidatePartitionedInputV2 (rep : Node) (numCores : Int) :
    Bool × List Diag :=
  let arity : Int := rep.data.operandTypes.length
  if rep.data.isPacked ∧ arity ≠ 1 then
    (false, [Diag.partPackedArity numCores arity])
  else if ¬rep.data.isPacked ∧ arity ≠ numCores then
    (false, [Diag.partInputArity numCores arity])
  else (true, [])

/-- `ValidatePartitionedOutput` (both v1 and v2): output arity against
`num_cores_per_replica`. -/
def ValidatePartitionedOutput (rep : Node) (numCores : Int) :
    Bool × List Diag :=
  let arity : Int := rep.data.resultTypes.length
  if arity ≠ numCores then (false, [Diag.partOutputArity numCores arity])
  else (true, [])

/-- `CheckReplicatedIOOp`: dispatch on the six replication/partition
kinds using the fields of the metadata op handed in by the caller. -/
def CheckReplicatedIOOp (op : Node) (metadata : OpData) : Bool × List Diag :=
  match op.data.kind with
  | .tpuReplicatedInput =>
    ValidateReplicatedInput op metadata.numReplicas metadata.tpuReplicateAttr
  | .tpuReplicatedOutput =>
    ValidateReplicatedOutput op metadata.numReplicas metadata.tpuReplicateAttr
  | .tpuPartitionedInput =>
    ValidatePartitionedInput op metadata.numCoresPerReplica
  | .tpuPartitionedInputV2 =>
    ValidatePartitionedInputV2 op metadata.numCoresPerReplica
  | .tpuPartitionedOutput =>
    ValidatePartitionedOutput op metadata.numCoresPerReplica
  | .tpuPartitionedOutputV2 =>
    ValidatePartitionedOutput op metadata.numCoresPerReplica
  | _ => (true, [])

/-- `CheckClusterSuccessors`: a regular successor of a cluster op must
carry the same cluster; an empty/absent cluster is only a warning. -/
def CheckClusterSuccessors (op : OpData) (cluster : String) :
    Bool × List Diag :=
  let clusterSucc := op.tpuReplicateAttr.getD ""
  if clusterSucc.isEmpty then (true, [Diag.nonClusterSuccessorWarning])
  else if cluster ≠ clusterSucc then
    (false, [Diag.mismatchedClusters cluster clusterSucc])
  else (true, [])

/-- `CheckNonClusterSuccessors`: a non-cluster op must not have a
replicated-output successor. -/
def CheckNonClusterSuccessors (op : OpData) : Bool × List Diag :=
  if !IsTpuRegularOp op then
    if op.kind = .tpuReplicatedOutput then
      (false, [Diag.invalidSuccessorOfNonCluster])
    else (true, [])
  else (true, [])

/-- `CheckNonClusterPredecessors`: a non-cluster op must not have a
replicated-input predecessor. -/
def CheckNonClusterPredecessors (op : OpData) : Bool × List Diag :=
  if !IsTpuRegularOp op then
    if op.kind = .tpuReplicatedInput then
      (false, [Diag.invalidPredecessorOfNonCluster])
    else (true, [])
  else (true, [])

/-- One iteration of the predecessor loop in `CheckOpsClusterIO`. -/
def predCheck (isClusterOp : Bool) (meta : Option OpData) (pred : Node) :
    Bool × List Diag :=
  if isClusterOp && !IsTpuRegularOp pred.data then
    match meta with
    | some m => CheckReplicatedIOOp pred m
    | none => (true, [])
  else if !isClusterOp then CheckNonClusterPredecessors pred.data
  else (true, [])

/-- One iteration of the successor loop in `CheckOpsClusterIO`. -/
def succCheck (isClusterOp : Bool) (cluster : String) (meta : Option OpData)
    (succ : Node) : Bool × List Diag :=
  if isClusterOp then
    if !IsTpuRegularOp succ.data then
      match meta with
      | some m => CheckReplicatedIOOp succ m
      | none => (true, [])
    else CheckClusterSuccessors succ.data cluster
  else CheckNonClusterSuccessors succ.data

/-- `CheckOpsClusterIO`: reject an empty `_tpu_replicate` value, then run
the predecessor loop and, if it did not fail, the successor loop. -/
def CheckOpsClusterIONode (node : Node) (mmap : MetadataMap) :
    Bool × List Diag :=
  let hasAttr := node.data.tpuReplicateAttr.isSome
  let cluster := node.data.tpuReplicateAttr.getD ""
  if hasAttr && cluster.isEmpty then (false, [Diag.emptyTpuReplicateAttr])
  else
    let meta := lookupMeta mmap cluster
    let rp := runAll (predCheck hasAttr meta) node.preds
    if rp.1 then
      let rs := runAll (succCheck hasAttr cluster meta) node.succs
      (rs.1, rp.2 ++ rs.2)
    else rp

/-- `InTypeMustBeNonXLA`: element type is not a resource and the type is
not valid for XLA. -/
def InTypeMustBeNonXLA (t : TFType) : Bool :=
  !t.elemIsResource && !t.validForXLA

/-- `IsMustNotBeXlaOp`: some operand type must be non-XLA, or some result
type is invalid for XLA. -/
def IsMustNotBeXlaOp (op : OpData) : Bool :=
  op.operandTypes.any InTypeMustBeNonXLA ||
    op.resultTypes.any (fun t => !t.validForXLA)

/-- `absl::StrContains`. -/
def strContains (s pat : String) : Bool := (s.splitOn pat).length ≠ 1

/-- `IsMustBeXlaOp`: the op carries a cluster attribute with known
metadata, and either soft placement is off and the op has no
outside-compilation marker, or its device string mentions the TPU device. -/
def IsMustBeXlaOp (op : OpData) (mmap : MetadataMap) : Bool :=
  match op.tpuReplicateAttr with
  | none => false
  | some cluster =>
    match lookupMeta mmap cluster with
    | none => false
    | some metadata =>
      if !metadata.allowSoftPlacement && !op.outsideCompilationAttr then true
      else
        match op.deviceAttr with
        | none => false
        | some device => strContains device "TPU"

/-- The seven kinds `ValidateIntersectionXlaNonXlaOps` skips outright. -/
def isReplicationOrMetadataKind : OpKind → Bool
  | .tpuReplicateMetadata
  | .tpuReplicatedInput | .tpuReplicatedOutput
  | .tpuPartitionedInput | .tpuPartitionedInputV2
  | .tpuPartitionedOutput | .tpuPartitionedOutputV2 => true
  | _ => false

/-- `ValidateIntersectionXlaNonXlaOps`: skip the replication/metadata
kinds; otherwise it is an error for an op to be simultaneously must-XLA
and must-not-XLA. -/
def ValidateIntersectionXlaNonXlaOps (op : OpData) (mmap : MetadataMap) :
    Bool × List Diag :=
  if isReplicationOrMetadataKind op.kind then (true, [])
  else if IsMustBeXlaOp op mmap && IsMustNotBeXlaOp op then
    (false, [Diag.xlaNonXlaConflict])
  else (true, [])

/-- The metadata-collection walk of `runOnOperation`: every metadata op is
recorded under its `_tpu_replicate` value; a later op with the same key
shadows an earlier one (map assignment). -/
def buildMetadataMap (g : List Node) : MetadataMap :=
  g.foldl
    (fun m n =>
      if n.data.kind = OpKind.tpuReplicateMetadata then
        (n.data.tpuReplicateAttr.getD "", n.data) :: m
      else m)
    []

/-- The body of the checking walk for one op: `CheckOpsClusterIO` when the
op is TPU-regular, then `ValidateIntersectionXlaNonXlaOps` when the
intersection classifier selects it; verdicts are AND-ed. -/
def visitNode (mmap : MetadataMap) (n : Node) : Bool × List Diag :=
  let a :=
    if IsTpuRegularOp n.data then CheckOpsClusterIONode n mmap
    else (true, [])
  let b :=
    if IsIntersectionXlaNonXlaOps n.data then
      ValidateIntersectionXlaNonXlaOps n.data mmap
    else (true, [])
  (a.1 && b.1, a.2 ++ b.2)

/-- The checking walk from a given accumulated verdict and diagnostic
sequence (`success &= ...` over the remaining ops). -/
def runFrom (mmap : MetadataMap) (acc : Bool × List Diag) :
    List Node → Bool × List Diag
  | [] => acc
  | n :: rest =>
    runFrom mmap
      (acc.1 && (visitNode mmap n).1, acc.2 ++ (visitNode mmap n).2) rest

/-- `TPUValidateInputsPass::runOnOperation`: build the metadata map, then
walk every op; the pass fails iff the accumulated verdict is false. -/
def runPass (g : List Node) : Bool × List Diag :=
  runFrom (buildMetadataMap g) (true, []) g

/-- Concatenation of a list of diagnostic lists. -/
def concatAll : List (List Diag) → List Diag
  | [] => []
  | d :: ds => d ++ concatAll ds

/-- The diagnostic of `ValidateIntersectionXlaNonXlaOps`. -/
def Diag.isConflict : Diag → Bool
  | .xlaNonXlaConflict => true
  | _ => false

/-- A non-metadata op with the given kind, cluster attribute, operand and
result types and packing flag (no device, no outside-compilation marker). -/
def mkOp (kind : OpKind) (attr : Option String)
    (operands results : List TFType) (packed : Bool) : OpData :=
  ⟨kind, attr, none, false, packed, operands, results, false, 1, 1⟩

/-- A `TPUReplicateMetadata` op for the given cluster. -/
def mkMeta (attr : String) (nr nc : Int) (soft : Bool) : OpData :=
  ⟨OpKind.tpuReplicateMetadata, some attr, none, false, false, [], [], soft,
    nr, nc⟩

/-- A node with no predecessors and no successors. -/
def leafNode (d : OpData) : Node := .mk d [] []

/-- A type valid for XLA compilation. -/
def xlaOk : TFType := ⟨false, true⟩

/-- A non-resource type invalid for XLA compilation. -/
def nonXlaTy : TFType := ⟨false, false⟩

/-- Metadata for cluster `c1`: 2 replicas, 2 cores, no soft placement. -/
def metaC1 : OpData := mkMeta "c1" 2 2 false

/-- The intersection classifier as the specification words it:
kind in the intersection set, or unregistered. -/
def specIsIntersectionCandidate (op : OpData) : Bool :=
  intersectionSet op.kind || !isRegistered op.kind

/-- A constant op (kind in the intersection set). -/
def constC1 : OpData := mkOp OpKind.constOp none [] [] false

/-- A registered op outside both static sets. -/
def addC1 : OpData := mkOp (OpKind.otherRegistered "AddV2") none [] [] false

/-- A constant op in cluster `c1` with a non-XLA operand type: it is both
must-be-XLA (soft placement off, no outside-compilation marker) and
must-not-be-XLA (invalid operand type). -/
def constConflict : OpData :=
  mkOp OpKind.constOp (some "c1") [nonXlaTy] [] false

/-- Graph: the `c1` metadata op and the conflicting constant. -/
def gC2 : List Node := [leafNode metaC1, leafNode constConflict]

/-- An ordinary registered op in cluster `c1` with a non-XLA operand. -/
def otherConflict : OpData :=
  mkOp (OpKind.otherRegistered "CustomOp") (some "c1") [nonXlaTy] [] false

/-- Graph: the `c1` metadata op and the conflicting ordinary op. -/
def gC2w : List Node := [leafNode metaC1, leafNode otherConflict]

/-- The six replication/partition kinds. -/
def isReplicationOrPartitionKind : OpKind → Bool
  | .tpuReplicatedInput | .tpuReplicatedOutput
  | .tpuPartitionedInput | .tpuPartitionedInputV2
  | .tpuPartitionedOutput | .tpuPartitionedOutputV2 => true
  | _ => false

/-- A partitioned-input op with 3 operands and no neighbours. -/
def pt10 : Node :=
  leafNode (mkOp OpKind.tpuPartitionedInput none [xlaOk, xlaOk, xlaOk] []
    false)

/-- Graph: metadata for `c1` (2 cores per replica) and the partitioned
input with arity 3, with no plain cluster neighbour. -/
def gC10 : List Node := [leafNode metaC1, pt10]

/-- Metadata for cluster `c2`: 3 replicas, 2 cores. -/
def metaC2 : OpData := mkMeta "c2" 3 2 false

/-- The plain cluster op of cluster `c1` (data only). -/
def pDataC3 : OpData := mkOp (OpKind.otherRegistered "MyOp") (some "c1") [] [] false

/-- A replicated-input with 2 unpacked operands whose own cluster
attribute says `c2`, and whose successor is the plain `c1` op. -/
def repC3 : Node :=
  .mk (mkOp OpKind.tpuReplicatedInput (some "c2") [xlaOk, xlaOk] [] false)
    [] [leafNode pDataC3]

/-- The plain `c1` op with the replicated-input as predecessor. -/
def pNodeC3 : Node := .mk pDataC3 [repC3] []

/-- Graph with both metadata ops, the plain op and the replicated-input. -/
def gC3 : List Node := [leafNode metaC1, leafNode metaC2, pNodeC3, repC3]

/-- A replicated-input node with no neighbours. -/
def rIn4 : Node := leafNode (mkOp OpKind.tpuReplicatedInput none [] [] false)

/-- A replicated-output node with no neighbours. -/
def rOut4 : Node := leafNode (mkOp OpKind.tpuReplicatedOutput none [] [] false)

/-- A non-cluster op with a replicated-input predecessor AND a
replicated-output successor: two distinct adjacency violations. -/
def n4 : Node := .mk (mkOp (OpKind.otherRegistered "AddV2") none [] [] false)
  [rIn4] [rOut4]

/-- The graph around `n4`. -/
def gC4 : List Node := [rIn4, n4, rOut4]

/-- A packed replicated-input with exactly one operand whose regular
successor carries no cluster attribute. -/
def rep5 : Node :=
  .mk (mkOp OpKind.tpuReplicatedInput none [xlaOk] [] true)
    [] [leafNode (mkOp (OpKind.otherRegistered "B") none [] [] false)]

/-- A packed replicated-input with 2 operands (arity violation). -/
def rep5w : Node :=
  leafNode (mkOp OpKind.tpuReplicatedInput none [xlaOk, xlaOk] [] true)

/-- A regular successor carrying no cluster attribute. -/
def succ6 : OpData := mkOp (OpKind.otherRegistered "B") none [] [] false

/-- A cluster-`c1` op whose only successor is the attribute-less op. -/
def p6 : Node :=
  .mk (mkOp (OpKind.otherRegistered "MyOp") (some "c1") [] [] false)
    [] [leafNode succ6]

/-- Scenario graph: only anomaly is the attribute-less plain successor. -/
def gC6 : List Node := [p6]

/-- A non-cluster op with a replicated-input predecessor. -/
def n7 : Node :=
  .mk (mkOp (OpKind.otherRegistered "A") none [] [] false)
    [leafNode (mkOp OpKind.tpuReplicatedInput none [] [] false)] []

/-- A replicated-input (structural kind) carrying an empty cluster
attribute. -/
def rEmpty : Node :=
  leafNode (mkOp OpKind.tpuReplicatedInput (some "") [] [] false)

/-- Its one-node graph. -/
def gC8 : List Node := [rEmpty]

/-- A TPU-regular op with an empty cluster attribute. -/
def regEmpty : Node :=
  leafNode (mkOp (OpKind.otherRegistered "A") (some "") [] [] false)

/-- Its one-node graph. -/
def gC8w : List Node := [regEmpty]

/-- State of the checking walk: remaining nodes, accumulated verdict,
accumulated diagnostic sequence. -/
structure PassState : Type where
  pending : List Node
  success : Bool
  diags : List Diag

/-- One step of the checking walk: visit the next op exactly as the walk
body does (`success &= ...`, diagnostics appended in order). The relation
reads only the graph and the metadata map — there is no other state. -/
inductive PassStep (mmap : MetadataMap) : PassState → PassState → Prop where
  | visit (n : Node) (rest : List Node) (s : Bool) (d : List Diag) :
      PassStep mmap ⟨n :: rest, s, d⟩
        ⟨rest, s && (visitNode mmap n).1, d ++ (visitNode mmap n).2⟩

/-- Start of a run: whole graph pending, verdict true, no diagnostics. -/
def initState (g : List Node) : PassState := ⟨g, true, []⟩

theorem runAll_fst {α : Type} (f : α → Bool × List Diag) (l : List α) :
    (runAll f l).1 = l.all fun x => (f x).1 := by
  induction l with
  | nil => rfl
  | cons x xs ih =>
    simp only [runAll, List.all_cons]
    by_cases h : (f x).1
    · simp [h, ih]
    · simp [h]

theorem runAll_any_eq_false {α : Type} (p : Diag → Bool)
    (f : α → Bool × List Diag) (l : List α)
    (h : ∀ x, ((f x).2.any p) = false) :
    ((runAll f l).2.any p) = false := by
  induction l with
  | nil => rfl
  | cons x xs ih =>
    simp only [runAll]
    by_cases hx : (f x).1
    · simp [hx, List.any_append, ih, h x]
    · simp [hx, h x]

theorem all_eq_false_iff {α : Type} (l : List α) (f : α → Bool) :
    l.all f = false ↔ ∃ x ∈ l, f x = false := by
  induction l with
  | nil => simp
  | cons x xs ih =>
    simp only [List.all_cons, List.mem_cons]
    constructor
    · intro h
      cases hx : f x with
      | false => exact ⟨x, Or.inl rfl, hx⟩
      | true =>
        rw [hx, Bool.true_and] at h
        rcases ih.mp h with ⟨y, hy, hfy⟩
        exact ⟨y, Or.inr hy, hfy⟩
    · rintro ⟨y, rfl | hy, hfy⟩
      · simp [hfy]
      · have hxs : xs.all f = false := ih.mpr ⟨y, hy, hfy⟩
        simp [hxs]

theorem all_eq_false_of_mem {α : Type} {l : List α} {f : α → Bool} {x : α}
    (hx : x ∈ l) (h : f x = false) : l.all f = false :=
  (all_eq_false_iff l f).mpr ⟨x, hx, h⟩

theorem mem_concatAll {d : Diag} {l : List Diag} {ls : List (List Diag)}
    (hl : l ∈ ls) (hd : d ∈ l) : d ∈ concatAll ls := by
  induction ls with
  | nil => cases hl
  | cons a as ih =>
    rcases List.mem_cons.mp hl with rfl | hl'
    · exact List.mem_append_left _ hd
    · exact List.mem_append_right _ (ih hl')

theorem runFrom_fst (mmap : MetadataMap) (l : List Node) :
    ∀ acc : Bool × List Diag,
      (runFrom mmap acc l).1 =
        (acc.1 && l.all fun n => (visitNode mmap n).1) := by
  induction l with
  | nil => intro acc; simp [runFrom]
  | cons n rest ih =>
    intro acc
    simp only [runFrom, List.all_cons]
    rw [ih]
    simp [Bool.and_assoc]

theorem runFrom_snd (mmap : MetadataMap) (l : List Node) :
    ∀ acc : Bool × List Diag,
      (runFrom mmap acc l).2 =
        acc.2 ++ concatAll (l.map fun n => (visitNode mmap n).2) := by
  induction l with
  | nil => intro acc; simp [runFrom, concatAll]
  | cons n rest ih =>
    intro acc
    simp only [runFrom, List.map_cons, concatAll]
    rw [ih]
    simp [List.append_assoc]

theorem runPass_fst (g : List Node) :
    (runPass g).1 = g.all fun n => (visitNode (buildMetadataMap g) n).1 := by
  unfold runPass
  rw [runFrom_fst]
  simp

theorem runPass_snd (g : List Node) :
    (runPass g).2 =
      concatAll (g.map fun n => (visitNode (buildMetadataMap g) n).2) := by
  unfold runPass
  rw [runFrom_snd]
  simp

theorem checkTpuAttr_no_conflict (op : OpData) (attr : Option String) :
    ((CheckTpuReplicateAttr op attr).2.any Diag.isConflict) = false := by
  unfold CheckTpuReplicateAttr
  rcases op.tpuReplicateAttr with _ | s
  · simp [Diag.isConflict]
  · by_cases hs : some s ≠ attr <;> simp [hs, Diag.isConflict]

theorem neighborAttrCheck_no_conflict (attr : Option String) (n : Node) :
    ((neighborAttrCheck attr n).2.any Diag.isConflict) = false := by
  unfold neighborAttrCheck
  by_cases h : IsTpuRegularOp n.data <;> simp [h, checkTpuAttr_no_conflict]

theorem valRepInput_no_conflict (rep : Node) (nr : Int)
    (attr : Option String) :
    ((ValidateReplicatedInput rep nr attr).2.any Diag.isConflict) = false := by
  simp only [ValidateReplicatedInput]
  split
  · simp [Diag.isConflict]
  · split
    · simp [Diag.isConflict]
    · exact runAll_any_eq_false _ _ _ (neighborAttrCheck_no_conflict attr)

theorem valRepOutput_no_conflict (rep : Node) (nr : Int)
    (attr : Option String) :
    ((ValidateReplicatedOutput rep nr attr).2.any Diag.isConflict) = false := by
  simp only [ValidateReplicatedOutput]
  split
  · simp [Diag.isConflict]
  · exact runAll_any_eq_false _ _ _ (neighborAttrCheck_no_conflict attr)

theorem valPartInput_no_conflict (rep : Node) (nc : Int) :
    ((ValidatePartitionedInput rep nc).2.any Diag.isConflict) = false := by
  simp only [ValidatePartitionedInput]
  split <;> simp [Diag.isConflict]

theorem valPartInputV2_no_conflict (rep : Node) (nc : Int) :
    ((ValidatePartitionedInputV2 rep nc).2.any Diag.isConflict) = false := by
  simp only [ValidatePartitionedInputV2]
  split
  · simp [Diag.isConflict]
  · split <;> simp [Diag.isConflict]

theorem valPartOutput_no_conflict (rep : Node) (nc : Int) :
    ((ValidatePartitionedOutput rep nc).2.any Diag.isConflict) = false := by
  simp only [ValidatePartitionedOutput]
  split <;> simp [Diag.isConflict]

theorem checkRepIOOp_no_conflict (op : Node) (m : OpData) :
    ((CheckReplicatedIOOp op m).2.any Diag.isConflict) = false := by
  unfold CheckReplicatedIOOp
  cases h : op.data.kind <;>
    simp [valRepInput_no_conflict, valRepOutput_no_conflict,
      valPartInput_no_conflict, valPartInputV2_no_conflict,
      valPartOutput_no_conflict, Diag.isConflict]

theorem checkClusterSucc_no_conflict (op : OpData) (cluster : String) :
    ((CheckClusterSuccessors op cluster).2.any Diag.isConflict) = false := by
  simp only [CheckClusterSuccessors]
  split
  · simp [Diag.isConflict]
  · split <;> simp [Diag.isConflict]

theorem checkNonClusterSucc_no_conflict (op : OpData) :
    ((CheckNonClusterSuccessors op).2.any Diag.isConflict) = false := by
  unfold CheckNonClusterSuccessors
  split
  · split <;> simp [Diag.isConflict]
  · simp

theorem checkNonClusterPred_no_conflict (op : OpData) :
    ((CheckNonClusterPredecessors op).2.any Diag.isConflict) = false := by
  unfold CheckNonClusterPredecessors
  split
  · split <;> simp [Diag.isConflict]
  · simp

theorem predCheck_no_conflict (b : Bool) (meta : Option OpData) (p : Node) :
    ((predCheck b meta p).2.any Diag.isConflict) = false := by
  unfold predCheck
  split
  · rcases meta with _ | m
    · simp
    · simp [checkRepIOOp_no_conflict]
  · split
    · simp [checkNonClusterPred_no_conflict]
    · simp

theorem succCheck_no_conflict (b : Bool) (c : String) (meta : Option OpData)
    (s : Node) :
    ((succCheck b c meta s).2.any Diag.isConflict) = false := by
  unfold succCheck
  split
  · split
    · rcases meta with _ | m
      · simp
      · simp [checkRepIOOp_no_conflict]
    · simp [checkClusterSucc_no_conflict]
  · simp [checkNonClusterSucc_no_conflict]

theorem checkOps_no_conflict (n : Node) (mmap : MetadataMap) :
    ((CheckOpsClusterIONode n mmap).2.any Diag.isConflict) = false := by
  simp only [CheckOpsClusterIONode]
  split
  · simp [Diag.isConflict]
  · split
    · rw [List.any_append,
        runAll_any_eq_false _ _ _ (fun p => predCheck_no_conflict _ _ p),
        runAll_any_eq_false _ _ _ (fun s => succCheck_no_conflict _ _ _ s)]
      rfl
    · exact runAll_any_eq_false _ _ _ (fun p => predCheck_no_conflict _ _ p)

/-- The conflict diagnostic appears in a visit exactly when the
intersection classifier selected the op, the op is not of a
replication/metadata kind, and both exclusivity predicates hold. -/
theorem visit_conflict_eq (mmap : MetadataMap) (n : Node) :
    ((visitNode mmap n).2.any Diag.isConflict) =
      (IsIntersectionXlaNonXlaOps n.data &&
        (!isReplicationOrMetadataKind n.data.kind &&
          (IsMustBeXlaOp n.data mmap && IsMustNotBeXlaOp n.data))) := by
  simp only [visitNode, List.any_append]
  have ha :
      ((if IsTpuRegularOp n.data then CheckOpsClusterIONode n mmap
          else (true, [])).2.any Diag.isConflict) = false := by
    split
    · exact checkOps_no_conflict n mmap
    · rfl
  rw [ha, Bool.false_or]
  by_cases hi : IsIntersectionXlaNonXlaOps n.data
  · by_cases hr : isReplicationOrMetadataKind n.data.kind
    · simp [hi, hr, ValidateIntersectionXlaNonXlaOps]
    · cases hx : (IsMustBeXlaOp n.data mmap && IsMustNotBeXlaOp n.data) <;>
        simp [hi, hr, hx, ValidateIntersectionXlaNonXlaOps, Diag.isConflict]
  · simp [hi]

theorem nonClusterPred_fst (d : OpData) :
    (CheckNonClusterPredecessors d).1 =
      !(decide (d.kind = OpKind.tpuReplicatedInput)) := by
  rcases d with ⟨k, t, dv, oc, pk, ot, rt, sp, nr, nc⟩
  cases k <;> rfl

theorem nonClusterSucc_fst (d : OpData) :
    (CheckNonClusterSuccessors d).1 =
      !(decide (d.kind = OpKind.tpuReplicatedOutput)) := by
  rcases d with ⟨k, t, dv, oc, pk, ot, rt, sp, nr, nc⟩
  cases k <;> rfl

/-- The verdict of `CheckOpsClusterIO` is the empty-attribute test AND the
conjunction of the per-predecessor and per-successor checks. -/
theorem checkOps_fst (n : Node) (mmap : MetadataMap) :
    (CheckOpsClusterIONode n mmap).1 =
      (!(n.data.tpuReplicateAttr.isSome &&
          (n.data.tpuReplicateAttr.getD "").isEmpty) &&
        ((n.preds.all fun p =>
            (predCheck n.data.tpuReplicateAttr.isSome
              (lookupMeta mmap (n.data.tpuReplicateAttr.getD "")) p).1) &&
         (n.succs.all fun s =>
            (succCheck n.data.tpuReplicateAttr.isSome
              (n.data.tpuReplicateAttr.getD "")
              (lookupMeta mmap (n.data.tpuReplicateAttr.getD "")) s).1))) := by
  simp only [CheckOpsClusterIONode]
  by_cases h0 : (n.data.tpuReplicateAttr.isSome &&
      (n.data.tpuReplicateAttr.getD "").isEmpty) = true
  · simp [h0]
  · rw [Bool.not_eq_true] at h0
    simp only [h0, Bool.false_eq_true, if_false, Bool.not_false, Bool.true_and]
    by_cases hrp : (runAll
        (predCheck n.data.tpuReplicateAttr.isSome
          (lookupMeta mmap (n.data.tpuReplicateAttr.getD ""))) n.preds).1 = true
    · rw [runAll_fst] at hrp
      simp [hrp, runAll_fst]
    · rw [Bool.not_eq_true] at hrp
      rw [runAll_fst] at hrp
      simp [hrp, runAll_fst]

theorem neighborAttrCheck_no_arity (attr : Option String) (n : Node) :
    ((neighborAttrCheck attr n).2.any Diag.isRepInputArityDiag) = false := by
  unfold neighborAttrCheck CheckTpuReplicateAttr
  by_cases h : IsTpuRegularOp n.data
  · rcases n.data.tpuReplicateAttr with _ | s
    · simp [h, Diag.isRepInputArityDiag]
    · by_cases hs : some s ≠ attr <;> simp [h, hs, Diag.isRepInputArityDiag]
  · simp [h]

/-- C1, counterexample: the code classifier is the complement of the
claimed one on registered kinds — a constant op is claimed to be an
intersection candidate but the code returns `false` for it, while an
ordinary registered op is claimed not to be a candidate but the code
returns `true`. -/
theorem intersection_candidate_claim_false :
    specIsIntersectionCandidate constC1 = true ∧
    IsIntersectionXlaNonXlaOps constC1 = false ∧
    specIsIntersectionCandidate addC1 = false ∧
    IsIntersectionXlaNonXlaOps addC1 = true := by
  decide

/-- C1, amended: a node is selected for the type-constraint check exactly
when its kind is NOT in the intersection set or is unregistered, and the
checking traversal emits the conflict diagnostic for a node exactly when
the node is so selected, is not of a replication/metadata kind, and both
exclusivity predicates hold. -/
theorem intersection_candidate_complement :
    (∀ op : OpData,
      IsIntersectionXlaNonXlaOps op =
        (!intersectionSet op.kind || !isRegistered op.kind)) ∧
    (∀ (mmap : MetadataMap) (n : Node),
      ((visitNode mmap n).2.any Diag.isConflict) =
        (IsIntersectionXlaNonXlaOps n.data &&
          (!isReplicationOrMetadataKind n.data.kind &&
            (IsMustBeXlaOp n.data mmap && IsMustNotBeXlaOp n.data)))) := by
  constructor
  · intro op
    rcases op with ⟨k, t, dv, oc, pk, ot, rt, sp, nr, nc⟩
    cases k <;> rfl
  · exact visit_conflict_eq

/-- C2, counterexample: a node whose kind is in the intersection set
satisfies both exclusivity predicates, yet the pass succeeds with no
diagnostics, because `IsIntersectionXlaNonXlaOps` skips kinds inside the
set. -/
theorem intersection_set_conflict_unflagged :
    intersectionSet constConflict.kind = true ∧
    IsMustBeXlaOp constConflict (buildMetadataMap gC2) = true ∧
    IsMustNotBeXlaOp constConflict = true ∧
    runPass gC2 = (true, []) := by
  decide

/-- C2, amended: for every node the intersection classifier actually
selects (kind outside the intersection set or unregistered) that is not of
a replication/metadata kind, satisfying both exclusivity predicates forces
the pass verdict to failure. -/
theorem conflict_outside_intersection_set_fails
    (g : List Node) (n : Node) (hmem : n ∈ g)
    (hcls : IsIntersectionXlaNonXlaOps n.data = true)
    (hrep : isReplicationOrMetadataKind n.data.kind = false)
    (hmust : IsMustBeXlaOp n.data (buildMetadataMap g) = true)
    (hnot : IsMustNotBeXlaOp n.data = true) :
    (runPass g).1 = false := by
  rw [runPass_fst]
  apply all_eq_false_of_mem hmem
  have hb : (ValidateIntersectionXlaNonXlaOps n.data
      (buildMetadataMap g)).1 = false := by
    unfold ValidateIntersectionXlaNonXlaOps
    simp [hrep, hmust, hnot]
  simp [visitNode, hcls, hb]

/-- C2, witness: the amended theorem applied to a concrete graph. -/
theorem conflict_outside_intersection_set_fails_witness :
    (runPass gC2w).1 = false :=
  conflict_outside_intersection_set_fails gC2w (leafNode otherConflict)
    (List.mem_cons_of_mem _ (List.mem_cons_self _ _))
    (by decide) (by decide) (by decide) (by decide)

/-- C10: the six replication/partition kinds are never TPU-regular, so the
traversal never runs the cluster-IO check on them directly; concretely, a
partitioned-input whose arity violates the cores-per-replica rule, with no
plain cluster neighbour, yields a success verdict with no diagnostics. -/
theorem partition_arity_unchecked_without_cluster_neighbor :
    (∀ op : OpData,
      (isReplicationOrPartitionKind op.kind && IsTpuRegularOp op) = false) ∧
    (ValidatePartitionedInput pt10 metaC1.numCoresPerReplica).1 = false ∧
    runPass gC10 = (true, []) := by
  refine ⟨?_, by decide, by decide⟩
  intro op
  rcases op with ⟨k, t, dv, oc, pk, ot, rt, sp, nr, nc⟩
  cases k <;> rfl

/-- C3, counterexample: the replicated-input asserts cluster `c2`
(3 replicas), under whose metadata its arity 2 fails, yet the delegated
check run from its `c1` neighbour passes, because the code hands over the
metadata of the neighbour's cluster `c1` (2 replicas), not of the
replication node's own cluster. -/
theorem delegation_own_cluster_claim_false :
    repC3.data.tpuReplicateAttr = some "c2" ∧
    lookupMeta (buildMetadataMap gC3) "c2" = some metaC2 ∧
    (ValidateReplicatedInput repC3 metaC2.numReplicas
      metaC2.tpuReplicateAttr).1 = false ∧
    CheckOpsClusterIONode pNodeC3 (buildMetadataMap gC3) = (true, []) := by
  decide

/-- C3, amended: the delegated checks use the metadata record of the
cluster asserted by the ADJACENT plain cluster node's attribute: the
outcome of that node's cluster-IO check depends on the metadata map only
through the entry for the node's own cluster identifier. -/
theorem cluster_io_check_uses_neighbor_cluster_entry
    (n : Node) (c : String) (m₁ m₂ : MetadataMap)
    (h : n.data.tpuReplicateAttr = some c)
    (hm : lookupMeta m₁ c = lookupMeta m₂ c) :
    CheckOpsClusterIONode n m₁ = CheckOpsClusterIONode n m₂ := by
  simp only [CheckOpsClusterIONode, h, Option.getD_some, Option.isSome_some,
    hm]

/-- C3, witness: two metadata maps agreeing on `c1` yield the same check
outcome for a `c1` node, whatever else they contain. -/
theorem cluster_io_check_uses_neighbor_cluster_entry_witness :
    CheckOpsClusterIONode pNodeC3 [("c1", metaC1), ("c2", metaC2)] =
      CheckOpsClusterIONode pNodeC3 [("c1", metaC1), ("other", metaC2)] :=
  cluster_io_check_uses_neighbor_cluster_entry pNodeC3 "c1" _ _ rfl rfl

/-- C4, counterexample: `n4` violates both the predecessor rule (replicated
input upstream) and the successor rule (replicated output downstream), but
a single run reports only the predecessor diagnostic — the first failing
check aborts the remaining checks on that node. -/
theorem second_violation_on_node_unreported :
    (CheckNonClusterPredecessors rIn4.data).1 = false ∧
    (CheckNonClusterSuccessors rOut4.data).1 = false ∧
    runPass gC4 = (false, [Diag.invalidPredecessorOfNonCluster]) := by
  decide

/-- C4, amended: a failing check on one node never prevents the checks on
other nodes — the verdict is the conjunction over every node of the graph
and the diagnostic sequence concatenates every node's diagnostics, with
failure reported only at the end — but within a single node the loop stops
at the first failing neighbour check, discarding its remaining neighbours. -/
theorem traversal_completes_but_node_stops_at_first_failure :
    (∀ g : List Node,
      (runPass g).1 =
        (g.all fun n => (visitNode (buildMetadataMap g) n).1) ∧
      (runPass g).2 =
        concatAll (g.map fun n => (visitNode (buildMetadataMap g) n).2)) ∧
    (∀ (f : Node → Bool × List Diag) (x : Node) (xs : List Node),
      (f x).1 = false → runAll f (x :: xs) = (false, (f x).2)) := by
  constructor
  · exact fun g => ⟨runPass_fst g, runPass_snd g⟩
  · intro f x xs h
    simp [runAll, h]

/-- C4, witness: the within-node loop applied at a concretely failing
first element ignores the rest of the list. -/
theorem traversal_completes_but_node_stops_at_first_failure_witness :
    runAll (fun _ : Node => (false, ([] : List Diag))) [rIn4, rOut4] =
      (false, []) :=
  traversal_completes_but_node_stops_at_first_failure.2 _ rIn4 [rOut4] rfl

/-- C5, counterexample: a packed replicated-input with operand count 1
(the claimed passing condition) still fails the check, because the check
also verifies attribute propagation to successors. -/
theorem packed_arity_one_can_still_fail :
    rep5.data.isPacked = true ∧
    rep5.data.operandTypes.length = 1 ∧
    (ValidateReplicatedInput rep5 2 (some "c1")).1 = false := by
  decide

/-- C5, amended: an ARITY violation (an arity diagnostic, forcing a false
result) occurs in the replicated-input check exactly when the node is
packed with operand count ≠ 1 (regardless of the replica count) or
unpacked with operand count ≠ num_replicas; with correct arity the check
may still fail on the successor-propagation rule. -/
theorem replicated_input_arity_rule (rep : Node) (nr : Int)
    (attr : Option String) :
    (((ValidateReplicatedInput rep nr attr).2.any
        Diag.isRepInputArityDiag) = true ↔
      ((rep.data.isPacked = true ∧
          (rep.data.operandTypes.length : Int) ≠ 1) ∨
       (rep.data.isPacked = false ∧
          (rep.data.operandTypes.length : Int) ≠ nr))) ∧
    (((rep.data.isPacked = true ∧
        (rep.data.operandTypes.length : Int) ≠ 1) ∨
      (rep.data.isPacked = false ∧
        (rep.data.operandTypes.length : Int) ≠ nr)) →
      (ValidateReplicatedInput rep nr attr).1 = false) := by
  have hrun := runAll_any_eq_false Diag.isRepInputArityDiag
    (neighborAttrCheck attr) rep.succs (neighborAttrCheck_no_arity attr)
  cases hp : rep.data.isPacked with
  | true =>
    by_cases ha : ((rep.data.operandTypes.length : Int) = 1)
    · simp [ValidateReplicatedInput, hp, ha, hrun]
    · simp [ValidateReplicatedInput, hp, ha, Diag.isRepInputArityDiag]
  | false =>
    by_cases ha : ((rep.data.operandTypes.length : Int) = nr)
    · simp [ValidateReplicatedInput, hp, ha, hrun]
    · simp [ValidateReplicatedInput, hp, ha, Diag.isRepInputArityDiag]

/-- C5, witness: the amended theorem at a packed node with 2 operands. -/
theorem replicated_input_arity_rule_witness :
    (ValidateReplicatedInput rep5w 5 none).1 = false :=
  (replicated_input_arity_rule rep5w 5 none).2 (Or.inl ⟨rfl, by decide⟩)

/-- C6: for a regular successor of a node in cluster `cluster`, the check
fails exactly on a non-empty differing identifier, an error diagnostic is
emitted exactly then, a successor with no identifier yields success with
only the warning, and a whole-pass run whose only anomaly is such a
successor succeeds. -/
theorem cluster_successor_rule :
    (∀ (op : OpData) (cluster : String),
      ((CheckClusterSuccessors op cluster).1 = false ↔
        ((op.tpuReplicateAttr.getD "").isEmpty = false ∧
          cluster ≠ op.tpuReplicateAttr.getD "")) ∧
      (((CheckClusterSuccessors op cluster).2.any Diag.isError) = true ↔
        ((op.tpuReplicateAttr.getD "").isEmpty = false ∧
          cluster ≠ op.tpuReplicateAttr.getD "")) ∧
      (op.tpuReplicateAttr = none →
        CheckClusterSuccessors op cluster =
          (true, [Diag.nonClusterSuccessorWarning]))) ∧
    runPass gC6 = (true, [Diag.nonClusterSuccessorWarning]) := by
  constructor
  · intro op cluster
    refine ⟨?_, ?_, fun h => by simp only [CheckClusterSuccessors, h]; rfl⟩
    · by_cases he : (op.tpuReplicateAttr.getD "").isEmpty
      · simp [CheckClusterSuccessors, he]
      · by_cases hc : cluster ≠ op.tpuReplicateAttr.getD "" <;>
          simp [CheckClusterSuccessors, he, hc]
    · by_cases he : (op.tpuReplicateAttr.getD "").isEmpty
      · simp [CheckClusterSuccessors, he, Diag.isError, Diag.isWarning]
      · by_cases hc : cluster ≠ op.tpuReplicateAttr.getD "" <;>
          simp [CheckClusterSuccessors, he, hc, Diag.isError, Diag.isWarning]
  · decide

/-- C6, witness: the no-identifier case of the rule at a concrete op. -/
theorem cluster_successor_rule_witness :
    CheckClusterSuccessors succ6 "c1" =
      (true, [Diag.nonClusterSuccessorWarning]) :=
  (cluster_successor_rule.1 succ6 "c1").2.2 rfl

/-- C7: for a node with no cluster attribute, the cluster-IO check fails
exactly when some predecessor is a replicated-input or some successor is a
replicated-output; partitioned-kind neighbours never trigger it. -/
theorem non_cluster_adjacency_rule (n : Node) (mmap : MetadataMap)
    (h : n.data.tpuReplicateAttr = none) :
    ((CheckOpsClusterIONode n mmap).1 = false ↔
      (∃ p ∈ n.preds, p.data.kind = OpKind.tpuReplicatedInput) ∨
      (∃ s ∈ n.succs, s.data.kind = OpKind.tpuReplicatedOutput)) := by
  rw [checkOps_fst]
  simp only [h, Option.isSome_none, Option.getD_none, Bool.false_and,
    Bool.not_false, Bool.true_and]
  have hpred : ∀ p : Node,
      (predCheck false (lookupMeta mmap "") p).1 =
        !(decide (p.data.kind = OpKind.tpuReplicatedInput)) := fun p => by
    rw [show predCheck false (lookupMeta mmap "") p =
        CheckNonClusterPredecessors p.data from rfl, nonClusterPred_fst]
  have hsucc : ∀ s : Node,
      (succCheck false "" (lookupMeta mmap "") s).1 =
        !(decide (s.data.kind = OpKind.tpuReplicatedOutput)) := fun s => by
    rw [show succCheck false "" (lookupMeta mmap "") s =
        CheckNonClusterSuccessors s.data from rfl, nonClusterSucc_fst]
  simp only [hpred, hsucc]
  have hb : ∀ a b : Bool, ((a && b) = false) ↔ (a = false ∨ b = false) := by
    decide
  rw [hb, all_eq_false_iff, all_eq_false_iff]
  simp

/-- C7, witness: the rule at a concrete node with a replicated-input
predecessor. -/
theorem non_cluster_adjacency_rule_witness :
    (CheckOpsClusterIONode n7 ([] : MetadataMap)).1 = false :=
  (non_cluster_adjacency_rule n7 [] rfl).mpr
    (Or.inl ⟨_, List.mem_cons_self _ _, rfl⟩)

/-- C8, counterexample: a node carrying an empty cluster attribute on
which the pass succeeds with no diagnostics at all — the empty-attribute
check only runs on TPU-regular nodes, and this kind is structural. -/
theorem empty_attr_on_structural_node_unreported :
    rEmpty.data.tpuReplicateAttr = some "" ∧
    runPass gC8 = (true, []) := by
  decide

/-- C8, amended: every TPU-regular node of the graph carrying an
empty-string cluster attribute forces a failure verdict and the
empty-attribute error diagnostic into the output. -/
theorem empty_attr_on_regular_node_fails (g : List Node) (n : Node)
    (hmem : n ∈ g) (hreg : IsTpuRegularOp n.data = true)
    (hattr : n.data.tpuReplicateAttr = some "") :
    (runPass g).1 = false ∧
    Diag.emptyTpuReplicateAttr ∈ (runPass g).2 := by
  have hcheck : CheckOpsClusterIONode n (buildMetadataMap g) =
      (false, [Diag.emptyTpuReplicateAttr]) := by
    simp only [CheckOpsClusterIONode, hattr]
    rfl
  constructor
  · rw [runPass_fst]
    apply all_eq_false_of_mem hmem
    simp [visitNode, hreg, hcheck]
  · rw [runPass_snd]
    refine mem_concatAll (List.mem_map_of_mem _ hmem) ?_
    simp [visitNode, hreg, hcheck]

/-- C8, witness: the amended theorem at a concrete regular node. -/
theorem empty_attr_on_regular_node_fails_witness :
    (runPass gC8w).1 = false ∧
    Diag.emptyTpuReplicateAttr ∈ (runPass gC8w).2 :=
  empty_attr_on_regular_node_fails gC8w regEmpty (List.mem_cons_self _ _)
    (by decide) rfl

/-- Any complete execution of the walk computes `runFrom` of its start. -/
theorem exec_complete (mmap : MetadataMap) {a f : PassState}
    (h : Relation.ReflTransGen (PassStep mmap) a f) (hf : f.pending = []) :
    (f.success, f.diags) = runFrom mmap (a.success, a.diags) a.pending := by
  induction h using Relation.ReflTransGen.head_induction_on with
  | refl => rw [hf]; rfl
  | head step tail ih =>
    cases step with
    | visit n rest s d => simpa [runFrom] using ih

/-- C9: two complete runs of the checking walk on the same unchanged graph
end with the same verdict and the same diagnostic sequence. -/
theorem pass_rerun_deterministic (g : List Node) (f₁ f₂ : PassState)
    (e₁ : Relation.ReflTransGen (PassStep (buildMetadataMap g))
      (initState g) f₁)
    (p₁ : f₁.pending = [])
    (e₂ : Relation.ReflTransGen (PassStep (buildMetadataMap g))
      (initState g) f₂)
    (p₂ : f₂.pending = []) :
    f₁.success = f₂.success ∧ f₁.diags = f₂.diags := by
  have h₁ := exec_complete (buildMetadataMap g) e₁ p₁
  have h₂ := exec_complete (buildMetadataMap g) e₂ p₂
  rw [← h₂] at h₁
  exact ⟨congrArg Prod.fst h₁, congrArg Prod.snd h₁⟩

/-- C9, witness: the theorem applied to two (trivial) complete executions
on the empty graph. -/
theorem pass_rerun_deterministic_witness :
    (initState []).success = (initState []).success ∧
    (initState []).diags = (initState []).diags :=
  pass_rerun_deterministic [] (initState []) (initState [])
    Relation.ReflTransGen.refl rfl Relation.ReflTransGen.refl rfl

end TPUValidate

